import Mathlib

/-!
Shallow embedding of the CSV summarizer `analyze_air_quality_csv`
(`src/app.py`, lines 24-71) of the Mission-Sustainability repository.

The routine loads a CSV with pandas, lowercases/strips column names,
detects a date column, sorts by it, detects pollutant columns from a
fixed vocabulary, and emits a plain-text report: row count, date range,
per-pollutant means and a coarse head/tail trend line, or a 5-row
preview when no pollutant column matches.

Modelling conventions (each noted again at the definition it concerns):

* A cell is modelled post-load: `Cell.missing` for an empty/NA field,
  `Cell.num q` for a field pandas can read as a number, `Cell.stamp t`
  for a field `pd.to_datetime` can parse, `Cell.str s` for any other
  text.  `pandas.read_csv` infers a numeric dtype for a column exactly
  when the column is non-empty and every field is numeric or missing;
  otherwise the column keeps `object` (or datetime) dtype.
* Real arithmetic (float64) is modelled exactly over `ℚ`.
* `pd.to_datetime` applied to a *numeric* field (epoch interpretation)
  is abstracted to "unparseable" (`none`); the claims under study never
  exercise that corner.
-/

attribute [local semireducible] Rat.add Rat.mul Rat.inv Rat.sub Rat.ofScientific

/-- A parsed timestamp (`pd.Timestamp`): calendar date plus a
time-of-day component.  Chronological order is lexicographic on
`(y, m, d, time)`. -/
structure Stamp where
  y : Nat
  m : Nat
  d : Nat
  time : Nat
deriving DecidableEq

/-- Chronological (lexicographic) order on timestamps. -/
def Stamp.leB (a b : Stamp) : Bool :=
  if a.y ≠ b.y then decide (a.y < b.y)
  else if a.m ≠ b.m then decide (a.m < b.m)
  else if a.d ≠ b.d then decide (a.d < b.d)
  else decide (a.time ≤ b.time)

/-- One CSV field, modelled post-load (see the module docstring). -/
inductive Cell where
  | missing
  | num (q : ℚ)
  | str (s : String)
  | stamp (t : Stamp)
deriving DecidableEq

/-- The field is non-numeric text. -/
def Cell.isStr : Cell → Bool
  | .str _ => true
  | _ => false

/-- The field is a number or missing: the two shapes a field may have
inside a column to which `read_csv` gives a numeric (float/int) dtype. -/
def Cell.isNumLike : Cell → Bool
  | .num _ => true
  | .missing => true
  | _ => false

/-- Numeric value of the field, if any. -/
def Cell.num? : Cell → Option ℚ
  | .num q => some q
  | _ => none

/-- `pd.to_datetime(value, errors="coerce")` on one field: a parseable
date yields a timestamp, everything else becomes `NaT` (`none`).
The epoch interpretation of numeric fields is abstracted to `none`. -/
def Cell.toDatetime : Cell → Option Stamp
  | .stamp t => some t
  | _ => none

/-- The loaded tabular dataset: `pd.read_csv` output. `cols` is the
header in load order; each row lists its fields in the same order. -/
structure Dataset where
  cols : List String
  rows : List (List Cell)
deriving DecidableEq

/-- Whitespace test used by `str.strip()` (ASCII subset). -/
def isSpaceChar (c : Char) : Bool :=
  c == ' ' || c == '\t' || c == '\n' || c == '\r'

/-- `c.strip().lower()` on one header name: surrounding whitespace
removed, letters lowercased. -/
def normName (s : String) : String :=
  ⟨(((s.data.map Char.toLower).dropWhile isSpaceChar).reverse.dropWhile
      isSpaceChar).reverse⟩

/-- `df.columns = [c.strip().lower() for c in df.columns]` (app.py:26). -/
def normalizeCols (df : Dataset) : Dataset :=
  { df with cols := df.cols.map normName }

/-- The fixed date-column candidate list (app.py:29). -/
def dateCandidates : List String := ["date", "timestamp", "day", "datetime"]

/-- The fixed pollutant vocabulary (app.py:37). -/
def pollutantVocab : List String :=
  ["pm25", "pm2_5", "pm10", "no2", "so2", "co", "o3", "aqi"]

/-- First date candidate present among the columns (app.py:28-32). -/
def findDateCol (df : Dataset) : Option String :=
  dateCandidates.find? (fun c => df.cols.contains c)

/-- The value a row holds in the column named `c` (first matching
header position; `missing` when the name is absent). -/
def cellAt (df : Dataset) (c : String) (r : List Cell) : Cell :=
  match df.cols.findIdx? (fun x => x == c) with
  | some i => r.getD i Cell.missing
  | none => Cell.missing

/-- One column of a row list. -/
def colCells (df : Dataset) (c : String) (rows : List (List Cell)) : List Cell :=
  rows.map (cellAt df c)

/-- The parsed date of a row (`none` when there is no date column or
the field does not parse). -/
def rowDate (df : Dataset) (r : List Cell) : Option Stamp :=
  match findDateCol df with
  | some c => (cellAt df c r).toDatetime
  | none => none

/-- Sort key order used by `df.sort_values(by=date_col)`: ascending
dates, missing (`NaT`) placed last (pandas default `na_position`). -/
def optLe : Option Stamp → Option Stamp → Bool
  | none, none => true
  | none, some _ => false
  | some _, none => true
  | some a, some b => Stamp.leB a b

/-- Insert a row into an already sorted row list. -/
def insertRow (df : Dataset) (x : List Cell) : List (List Cell) → List (List Cell)
  | [] => [x]
  | y :: ys =>
    if optLe (rowDate df x) (rowDate df y) then x :: y :: ys
    else y :: insertRow df x ys

/-- Ascending insertion sort of the rows by parsed date. -/
def sortRowsBy (df : Dataset) : List (List Cell) → List (List Cell)
  | [] => []
  | x :: xs => insertRow df x (sortRowsBy df xs)

/-- The rows after app.py:33-35: sorted by the date column when one was
detected, untouched otherwise. -/
def sortedRows (df : Dataset) : List (List Cell) :=
  if (findDateCol df).isSome then sortRowsBy df df.rows else df.rows

/-- All non-missing parsed dates (`df[date_col]` minus `NaT`). -/
def dates (df : Dataset) : List Stamp :=
  (sortedRows df).filterMap (rowDate df)

/-- `df[date_col].min()`: minimum of the non-missing dates, `NaT`
(`none`) when there is none (app.py:40). -/
def dmin (df : Dataset) : Option Stamp :=
  match dates df with
  | [] => none
  | x :: xs => some (xs.foldl (fun a b => if Stamp.leB b a then b else a) x)

/-- `df[date_col].max()` (app.py:41). -/
def dmax (df : Dataset) : Option Stamp :=
  match dates df with
  | [] => none
  | x :: xs => some (xs.foldl (fun a b => if Stamp.leB a b then b else a) x)

/-- Two-digit zero padding. -/
def pad2 (n : Nat) : String := if n < 10 then "0" ++ toString n else toString n

/-- Four-digit zero padding. -/
def pad4 (n : Nat) : String :=
  if n < 10 then "000" ++ toString n
  else if n < 100 then "00" ++ toString n
  else if n < 1000 then "0" ++ toString n
  else toString n

/-- `timestamp.date()` rendering: ISO `YYYY-MM-DD`, the date portion
only (the `time` field is not consulted). -/
def renderDate (s : Stamp) : String :=
  pad4 s.y ++ "-" ++ pad2 s.m ++ "-" ++ pad2 s.d

/-- `start.date() if pd.notna(start) else 'N/A'` (app.py:42). -/
def fmtBound : Option Stamp → String
  | some s => renderDate s
  | none => "N/A"

/-- Round a non-negative rational to the nearest integer, ties to the
even integer (the rounding of Python `format(x, '.2f')`). -/
def roundHalfEven (r : ℚ) : Nat :=
  let fl : Nat := (Rat.floor r).toNat
  let frac : ℚ := r - (fl : ℚ)
  if frac > 1/2 then fl + 1
  else if frac < 1/2 then fl
  else if fl % 2 = 0 then fl else fl + 1

/-- Python `f"{q:.2f}"` on an exact value: fixed two-decimal rendering,
round half to even, sign kept even when the digits round to zero. -/
def fmtFixed2 (q : ℚ) : String :=
  let n := roundHalfEven (|q| * 100)
  (if q < 0 then "-" else "") ++ toString (n / 100) ++ "." ++ pad2 (n % 100)

/-- Rendering of one mean: Python formats the all-missing column's
`NaN` mean as `"nan"`. -/
def fmtMean : Option ℚ → String
  | some q => fmtFixed2 q
  | none => "nan"

/-- `[c for c in [...vocab...] if c in df.columns]` (app.py:37):
the pollutant columns, in vocabulary order. -/
def pollutants (df : Dataset) : List String :=
  pollutantVocab.filter (fun c => df.cols.contains c)

/-- `read_csv` gives the column a numeric dtype iff the dataset has at
least one row and every field of the column is numeric or missing.
(An empty frame's columns, and any column holding text or dates, keep
a non-numeric dtype.) -/
def colIsNumeric (df : Dataset) (c : String) : Bool :=
  !df.rows.isEmpty && (colCells df c df.rows).all Cell.isNumLike

/-- `Series.mean()` on a numeric column: mean of the non-missing
values, `NaN` (`none`) when there is none. -/
def meanOpt (cells : List Cell) : Option ℚ :=
  match cells.filterMap Cell.num? with
  | [] => none
  | ns => some (ns.sum / (ns.length : ℚ))

/-- `df[pollutants].mean(numeric_only=True).to_dict()` (app.py:45):
columns of non-numeric dtype are dropped whole; the remaining
pollutant columns keep vocabulary order and map to their nan-skipping
mean (which is itself `NaN` for an all-missing column). -/
def meansEntries (df : Dataset) : List (String × Option ℚ) :=
  (pollutants df).filterMap (fun c =>
    if colIsNumeric df c then some (c, meanOpt (colCells df c (sortedRows df)))
    else none)

/-- The `Means:` report line (app.py:46-47). -/
def meansLine (df : Dataset) : String :=
  "Means: " ++ String.intercalate "; "
    ((meansEntries df).map (fun p => p.1 ++ "=" ++ fmtMean p.2))

/-- The body of the per-pollutant trend step (app.py:55-62), including
the failure mode the surrounding `try` observes: `head[pol].mean()`
raises on a column of non-numeric dtype (`Except.error`), while on a
numeric column both quartile-slice means are taken with nan skipping
and the label is produced unless a mean is `NaN` or the drift is below
`1e-6`. -/
def trendTry (df : Dataset) (pol : String) : Except Unit (Option String) :=
  if colIsNumeric df pol then
    let sorted := sortedRows df
    let q := sorted.length / 4
    match meanOpt (colCells df pol (sorted.take q)),
          meanOpt (colCells df pol (sorted.drop (sorted.length - q))) with
    | some hm, some tm =>
      let delta := tm - hm
      if |delta| < 1/1000000 then Except.ok none
      else Except.ok (some (pol ++ ": "
        ++ (if delta < 0 then "decreasing" else "increasing")
        ++ " (~" ++ fmtFixed2 delta ++ ")"))
    | _, _ => Except.ok none
  else Except.error ()

/-- The contribution of one pollutant to `trend_msgs`: the
`try/except` (app.py:55-64) turns a raised error into a skip. -/
def trendLabel (df : Dataset) (pol : String) : Option String :=
  match trendTry df pol with
  | Except.ok o => o
  | Except.error _ => none

/-- `trend_msgs` (app.py:53-64). -/
def trendMsgs (df : Dataset) : List String :=
  (pollutants df).filterMap (trendLabel df)

/-- The `Simple trends:` report line (app.py:66). -/
def trendsLine (df : Dataset) : String :=
  "Simple trends: " ++ String.intercalate "; " (trendMsgs df)

/-- `date_col and df[date_col].notna().any()` (app.py:39, 49). -/
def dateCond (df : Dataset) : Bool :=
  (findDateCol df).isSome && !(dates df).isEmpty

/-- `f"Rows: {len(df)}"` (app.py:38), taken after the sort. -/
def rowsLine (df : Dataset) : String :=
  "Rows: " ++ toString (sortedRows df).length

/-- The `Date range:` report line (app.py:40-42). -/
def dateRangeLine (df : Dataset) : String :=
  "Date range: " ++ fmtBound (dmin df) ++ " → " ++ fmtBound (dmax df)

/-- The optional date-range segment of the report (app.py:39-42). -/
def dateLines (df : Dataset) : List String :=
  if dateCond df then [dateRangeLine df] else []

/-- The fixed fallback line (app.py:68). -/
def noPollMsg : String :=
  "No standard pollutant columns found. Showing dataframe head:"

/-- Rendering of one field inside the preview. -/
def Cell.render : Cell → String
  | .missing => "NaN"
  | .num q => toString q
  | .str s => s
  | .stamp t => renderDate t

/-- `DataFrame.to_string(index=False)`: header line then one line per
row, no index column.  pandas' column-width alignment is abstracted to
single-space separation; the claims under study depend only on which
rows and columns appear, not on padding. -/
def renderTable (cols : List String) (rows : List (List Cell)) : String :=
  String.intercalate "\n"
    (String.intercalate " " cols
      :: rows.map (fun r => String.intercalate " " (r.map Cell.render)))

/-- `df.head(5).to_string(index=False)` (app.py:69). -/
def previewStr (df : Dataset) : String :=
  renderTable df.cols ((sortedRows df).take 5)

/-- The optional trend segment (app.py:49-66): emitted exactly when the
date/row-count gate holds and at least one pollutant produced a label. -/
def trendLines (df : Dataset) : List String :=
  if dateCond df && decide (8 ≤ (sortedRows df).length)
      && !(trendMsgs df).isEmpty then
    [trendsLine df]
  else []

/-- The report lines below `Rows:`/`Date range:` (app.py:44-69): means
and trends when a pollutant column exists, the fallback preview
otherwise. -/
def bodyLines (df : Dataset) : List String :=
  if (pollutants df).isEmpty then [noPollMsg, previewStr df]
  else meansLine df :: trendLines df

/-- The summarizer `analyze_air_quality_csv` (app.py:24-71), as the
list of report lines it joins and returns. -/
def analyze_air_quality_csv (df0 : Dataset) : List String :=
  rowsLine (normalizeCols df0)
    :: (dateLines (normalizeCols df0) ++ bodyLines (normalizeCols df0))

/-- The returned report text: `"\n".join(desc)` (app.py:71). -/
def analyze_air_quality_csv_text (df0 : Dataset) : String :=
  String.intercalate "\n" (analyze_air_quality_csv df0)

/-- The 4-row sample CSV shipped in the app (app.py:236-240), loaded:
header `date,pm25,pm10,no2`, dates parsed, numbers read as numbers. -/
def sampleCsv : Dataset :=
  ⟨["date", "pm25", "pm10", "no2"],
   [[Cell.stamp ⟨2025, 1, 1, 0⟩, Cell.num 65, Cell.num 118, Cell.num 40],
    [Cell.stamp ⟨2025, 3, 1, 0⟩, Cell.num 58, Cell.num 100, Cell.num 38],
    [Cell.stamp ⟨2025, 5, 1, 0⟩, Cell.num 50, Cell.num 92, Cell.num 35],
    [Cell.stamp ⟨2025, 7, 1, 0⟩, Cell.num 44, Cell.num 85, Cell.num 32]]⟩

/-- The `Means:` entries exactly as Claim C1 words them: every
pollutant column is listed with the arithmetic mean over the rows that
hold a numeric, non-missing value in it (non-numeric/missing values
excluded from both sum and count), and only a column with no numeric
value at all is excluded.  Kept for comparison with the code-derived
`meansEntries`. -/
def meansEntriesClaim (df : Dataset) : List (String × ℚ) :=
  (pollutants df).filterMap (fun c =>
    match (colCells df c (sortedRows df)).filterMap Cell.num? with
    | [] => none
    | ns => some (c, ns.sum / (ns.length : ℚ)))

/-- The `Means:` line Claim C1 predicts. -/
def meansLineClaim (df : Dataset) : String :=
  "Means: " ++ String.intercalate "; "
    ((meansEntriesClaim df).map (fun p => p.1 ++ "=" ++ fmtFixed2 p.2))

/-- The per-pollutant trend label exactly as Claim C2 words it: both
quartile-slice means are taken with the skip-missing/skip-non-numeric
value semantics, the pollutant is skipped when either slice has no
numeric value or the drift is below `1e-6`, and otherwise labelled.
Kept for comparison with the code-derived `trendLabel`. -/
def trendLabelClaim (df : Dataset) (pol : String) : Option String :=
  match meanOpt (colCells df pol ((sortedRows df).take ((sortedRows df).length / 4))),
        meanOpt (colCells df pol
          ((sortedRows df).drop
            ((sortedRows df).length - (sortedRows df).length / 4))) with
  | some hm, some tm =>
    if |tm - hm| < 1/1000000 then none
    else some (pol ++ ": "
      ++ (if tm - hm < 0 then "decreasing" else "increasing")
      ++ " (~" ++ fmtFixed2 (tm - hm) ++ ")")
  | _, _ => none

/-- The `Simple trends:` line Claim C2 predicts. -/
def trendsLineClaim (df : Dataset) : String :=
  "Simple trends: "
    ++ String.intercalate "; " ((pollutants df).filterMap (trendLabelClaim df))

/-- The `Means:` entries as amended: a pollutant column is listed iff
the dataset has at least one row and no value of the column is
non-numeric text (or a date); a column containing any such value is
excluded whole.  A listed column's value is the nan-skipping mean of
the column, `NaN` when every value is missing. -/
def meansEntriesAmended (df : Dataset) : List (String × Option ℚ) :=
  (pollutants df).filterMap (fun c =>
    if df.rows.isEmpty || (colCells df c df.rows).any (fun x => !x.isNumLike) then
      none
    else some (c, meanOpt (colCells df c (sortedRows df))))

/-- The per-pollutant trend label as amended: a pollutant whose column
is empty or holds any non-numeric value is skipped outright (its slice
mean raises and the error is caught); otherwise the label is the one
Claim C2 describes. -/
def trendLabelAmended (df : Dataset) (pol : String) : Option String :=
  if df.rows.isEmpty || (colCells df pol df.rows).any (fun x => !x.isNumLike) then
    none
  else trendLabelClaim df pol

/-- A load whose only pollutant column holds a numeric value and a
non-numeric value: `read_csv` gives it object dtype. -/
def cexMixed : Dataset :=
  ⟨["pm25"], [[Cell.num 10], [Cell.str "abc"]]⟩

/-- An 8-row load with a date column and a mixed pollutant column
(one non-numeric value among numbers). -/
def cexTrend : Dataset :=
  ⟨["date", "pm25"],
   [[Cell.stamp ⟨2025, 1, 1, 0⟩, Cell.num 10],
    [Cell.stamp ⟨2025, 1, 2, 0⟩, Cell.str "x"],
    [Cell.stamp ⟨2025, 1, 3, 0⟩, Cell.num 10],
    [Cell.stamp ⟨2025, 1, 4, 0⟩, Cell.num 10],
    [Cell.stamp ⟨2025, 1, 5, 0⟩, Cell.num 10],
    [Cell.stamp ⟨2025, 1, 6, 0⟩, Cell.num 10],
    [Cell.stamp ⟨2025, 1, 7, 0⟩, Cell.num 20],
    [Cell.stamp ⟨2025, 1, 8, 0⟩, Cell.num 30]]⟩

/-- An 8-row load with a fully numeric, drifting pollutant column. -/
def cexTrendGood : Dataset :=
  ⟨["date", "pm25"],
   [[Cell.stamp ⟨2025, 1, 1, 0⟩, Cell.num 10],
    [Cell.stamp ⟨2025, 1, 2, 0⟩, Cell.num 10],
    [Cell.stamp ⟨2025, 1, 3, 0⟩, Cell.num 10],
    [Cell.stamp ⟨2025, 1, 4, 0⟩, Cell.num 10],
    [Cell.stamp ⟨2025, 1, 5, 0⟩, Cell.num 10],
    [Cell.stamp ⟨2025, 1, 6, 0⟩, Cell.num 10],
    [Cell.stamp ⟨2025, 1, 7, 0⟩, Cell.num 20],
    [Cell.stamp ⟨2025, 1, 8, 0⟩, Cell.num 30]]⟩

/-- An 8-row load where one pollutant column is mixed (its trend
computation raises) and another is fully numeric. -/
def cexTwoPoll : Dataset :=
  ⟨["date", "pm25", "pm10"],
   [[Cell.stamp ⟨2025, 1, 1, 0⟩, Cell.num 5, Cell.num 1],
    [Cell.stamp ⟨2025, 1, 2, 0⟩, Cell.str "oops", Cell.num 2],
    [Cell.stamp ⟨2025, 1, 3, 0⟩, Cell.num 5, Cell.num 3],
    [Cell.stamp ⟨2025, 1, 4, 0⟩, Cell.num 5, Cell.num 4],
    [Cell.stamp ⟨2025, 1, 5, 0⟩, Cell.num 5, Cell.num 5],
    [Cell.stamp ⟨2025, 1, 6, 0⟩, Cell.num 5, Cell.num 6],
    [Cell.stamp ⟨2025, 1, 7, 0⟩, Cell.num 5, Cell.num 7],
    [Cell.stamp ⟨2025, 1, 8, 0⟩, Cell.num 5, Cell.num 8]]⟩

/-- A load with no recognized date or pollutant column. -/
def cexNoPoll : Dataset :=
  ⟨["city", "temp"], [[Cell.str "a", Cell.num 1]]⟩

/-- A load whose only pollutant column is wholly non-numeric text. -/
def cexAllStr : Dataset :=
  ⟨["pm25"], [[Cell.str "bad"]]⟩

instance {ε α : Type} [DecidableEq ε] [DecidableEq α] :
    DecidableEq (Except ε α) := fun a b =>
  match a, b with
  | Except.error u, Except.error v =>
    if h : u = v then isTrue (by rw [h])
    else isFalse (by intro he; injection he with h2; exact h h2)
  | Except.ok u, Except.ok v =>
    if h : u = v then isTrue (by rw [h])
    else isFalse (by intro he; injection he with h2; exact h h2)
  | Except.error _, Except.ok _ => isFalse (fun he => Except.noConfusion he)
  | Except.ok _, Except.error _ => isFalse (fun he => Except.noConfusion he)

/-! ### Helper lemmas -/

theorem insertRow_perm (df : Dataset) (x : List Cell) :
    ∀ l : List (List Cell), List.Perm (insertRow df x l) (x :: l) := by
  intro l
  induction l with
  | nil => simp [insertRow]
  | cons y ys ih =>
    cases hc : optLe (rowDate df x) (rowDate df y) with
    | true => simp [insertRow, hc]
    | false =>
      simp only [insertRow, hc, Bool.false_eq_true, if_false]
      exact (ih.cons y).trans (List.Perm.swap x y ys)

theorem sortRowsBy_perm (df : Dataset) :
    ∀ l : List (List Cell), List.Perm (sortRowsBy df l) l := by
  intro l
  induction l with
  | nil => exact List.Perm.refl _
  | cons x xs ih => exact (insertRow_perm df x _).trans (ih.cons x)

theorem sortedRows_perm (df : Dataset) : List.Perm (sortedRows df) df.rows := by
  rw [sortedRows]
  split
  · exact sortRowsBy_perm df _
  · exact List.Perm.refl _

theorem length_sortedRows (df : Dataset) :
    (sortedRows df).length = df.rows.length :=
  (sortedRows_perm df).length_eq

theorem filterMap_congr_fun {α β : Type} (f g : α → Option β)
    (h : ∀ a, f a = g a) : ∀ l : List α, l.filterMap f = l.filterMap g := by
  intro l
  induction l with
  | nil => rfl
  | cons x xs ih => simp only [List.filterMap_cons, h x, ih]

theorem filterMap_nil_of_none {α β : Type} (f : α → Option β) :
    ∀ l : List α, (∀ a ∈ l, f a = none) → l.filterMap f = [] := by
  intro l
  induction l with
  | nil => intro _; rfl
  | cons x xs ih =>
    intro h
    simp only [List.filterMap_cons, h x (List.mem_cons_self x xs)]
    exact ih fun a ha => h a (List.mem_cons_of_mem x ha)

theorem filterMap_ne_nil_iff_exists {α β : Type} (f : α → Option β) :
    ∀ l : List α, l.filterMap f ≠ [] ↔ ∃ a, a ∈ l ∧ (f a).isSome = true := by
  intro l
  induction l with
  | nil => simp
  | cons x xs ih =>
    cases hf : f x with
    | none => simp [List.filterMap_cons, hf, ih]
    | some b =>
      simp only [List.filterMap_cons, hf]
      constructor
      · intro _; exact ⟨x, List.mem_cons_self x xs, by simp [hf]⟩
      · intro _; simp

theorem filterMap_skip_none {α β : Type} [BEq α] [LawfulBEq α]
    (f : α → Option β) (a : α) (ha : f a = none) :
    ∀ l : List α, l.filterMap f = (l.filter (fun x => x != a)).filterMap f := by
  intro l
  induction l with
  | nil => rfl
  | cons x xs ih =>
    by_cases hx : x = a
    · subst hx
      simp [List.filterMap_cons, List.filter_cons, ha, ih]
    · have hbne : (x != a) = true := by simpa using hx
      simp [List.filterMap_cons, List.filter_cons, hbne, ih]

theorem map_fst_filterMap_if {α β : Type} (p : α → Bool) (v : α → β) :
    ∀ l : List α,
      (l.filterMap (fun c => if p c then some (c, v c) else none)).map Prod.fst
        = l.filter p := by
  intro l
  induction l with
  | nil => rfl
  | cons x xs ih =>
    cases hp : p x <;>
      simp [List.filterMap_cons, List.filter_cons, hp, ih]

theorem any_not_eq_not_all {α : Type} (p : α → Bool) :
    ∀ l : List α, (l.any fun x => !p x) = !l.all p := by
  intro l
  induction l with
  | nil => rfl
  | cons x xs ih => cases hp : p x <;> simp [hp, ih]

theorem cell_isStr_not_numLike (x : Cell) (h : x.isStr = true) :
    x.isNumLike = false := by
  cases x <;> simp_all [Cell.isStr, Cell.isNumLike]

/-! ### Claim theorems -/

/-- Claim C3: on the 4-row sample CSV (`date,pm25,pm10,no2` with the
rows shipped in the app) the summarizer returns exactly the lines
`Rows: 4`, `Date range: 2025-01-01 → 2025-07-01`,
`Means: pm25=54.25; pm10=98.75; no2=36.25`, and no `Simple trends:`
line. -/
theorem sample_report_exact :
    analyze_air_quality_csv sampleCsv =
      ["Rows: 4",
       "Date range: 2025-01-01 → 2025-07-01",
       "Means: pm25=54.25; pm10=98.75; no2=36.25"] := by decide

/-- Claim C8: the summarizer is a pure function of the loaded file
contents — two runs on equal contents return byte-identical report
text. -/
theorem summarize_deterministic (d1 d2 : Dataset) (h : d1 = d2) :
    analyze_air_quality_csv_text d1 = analyze_air_quality_csv_text d2 := by
  rw [h]

/-- Witness for C8 at the sample CSV. -/
theorem summarize_deterministic_witness :
    analyze_air_quality_csv_text sampleCsv = analyze_air_quality_csv_text sampleCsv :=
  summarize_deterministic sampleCsv sampleCsv rfl

/-- Claim C7: for a dataset with a recognized date column, the count in
the `Rows:` line equals the pre-sort (load-time) row count — sorting by
date preserves the number of rows. -/
theorem rows_count_presort (df : Dataset)
    (h : (findDateCol (normalizeCols df)).isSome = true) :
    (analyze_air_quality_csv df).head? =
      some ("Rows: " ++ toString (normalizeCols df).rows.length) ∧
    (sortedRows (normalizeCols df)).length = (normalizeCols df).rows.length := by
  refine ⟨?_, length_sortedRows _⟩
  simp [analyze_air_quality_csv, rowsLine, length_sortedRows]

/-- Witness for C7 at the sample CSV. -/
theorem rows_count_presort_witness :
    (analyze_air_quality_csv sampleCsv).head? =
      some ("Rows: " ++ toString (normalizeCols sampleCsv).rows.length) ∧
    (sortedRows (normalizeCols sampleCsv)).length =
      (normalizeCols sampleCsv).rows.length :=
  rows_count_presort sampleCsv (by decide)

/-- Claim C9: whenever the `Date range:` guard holds (date column with
at least one non-missing parsed date), both the minimum and the maximum
are non-missing, so the line is rendered from two actual dates and the
`N/A` branch is unreachable. -/
theorem date_bounds_present (df : Dataset)
    (h : dateCond (normalizeCols df) = true) :
    ∃ a b : Stamp,
      dmin (normalizeCols df) = some a ∧
      dmax (normalizeCols df) = some b ∧
      dateRangeLine (normalizeCols df) =
        "Date range: " ++ renderDate a ++ " → " ++ renderDate b := by
  rw [dateCond, Bool.and_eq_true] at h
  obtain ⟨-, h2⟩ := h
  cases hd : dates (normalizeCols df) with
  | nil => rw [hd] at h2; simp at h2
  | cons x xs =>
    exact ⟨_, _, by rw [dmin, hd], by rw [dmax, hd],
      by rw [dateRangeLine, dmin, dmax, hd]; rfl⟩

/-- Witness for C9 at the sample CSV. -/
theorem date_bounds_present_witness :
    ∃ a b : Stamp,
      dmin (normalizeCols sampleCsv) = some a ∧
      dmax (normalizeCols sampleCsv) = some b ∧
      dateRangeLine (normalizeCols sampleCsv) =
        "Date range: " ++ renderDate a ++ " → " ++ renderDate b :=
  date_bounds_present sampleCsv (by decide)

/-- Claim C5: with no pollutant column matched the summarizer does not
fail: the report is exactly the `Rows:` line, the date-range line when
applicable, the fixed explanatory line and the preview of the first
`min 5 n` date-sorted rows (columns in normalized load order, no index
column); no `Means:` line is built, and with no date column detected no
`Date range:` line either. -/
theorem fallback_preview (df : Dataset)
    (h : pollutants (normalizeCols df) = []) :
    analyze_air_quality_csv df =
      rowsLine (normalizeCols df)
        :: (dateLines (normalizeCols df)
            ++ [noPollMsg, previewStr (normalizeCols df)]) ∧
    previewStr (normalizeCols df) =
      renderTable (normalizeCols df).cols ((sortedRows (normalizeCols df)).take 5) ∧
    ((sortedRows (normalizeCols df)).take 5).length =
      min 5 (normalizeCols df).rows.length ∧
    (findDateCol (normalizeCols df) = none →
      analyze_air_quality_csv df =
        [rowsLine (normalizeCols df), noPollMsg, previewStr (normalizeCols df)]) := by
  refine ⟨?_, rfl, ?_, ?_⟩
  · simp [analyze_air_quality_csv, bodyLines, h]
  · rw [List.length_take, length_sortedRows]
  · intro hnone
    simp [analyze_air_quality_csv, bodyLines, dateLines, dateCond, hnone, h]

/-- Witness for C5 at a dataset with no recognized columns. -/
theorem fallback_preview_witness :
    analyze_air_quality_csv cexNoPoll =
      rowsLine (normalizeCols cexNoPoll)
        :: (dateLines (normalizeCols cexNoPoll)
            ++ [noPollMsg, previewStr (normalizeCols cexNoPoll)]) :=
  (fallback_preview cexNoPoll (by decide)).1

/-- Claim C10: when pollutant columns match but every one of them is
wholly non-numeric text, the report still carries a bare `Means: ` line
(the dict of means is empty), with no fallback preview. -/
theorem bare_means_line (df : Dataset)
    (h1 : pollutants (normalizeCols df) ≠ [])
    (h2 : ∀ c ∈ pollutants (normalizeCols df),
        (colCells (normalizeCols df) c (normalizeCols df).rows).all Cell.isStr
          = true) :
    meansLine (normalizeCols df) = "Means: " ∧
    analyze_air_quality_csv df =
      rowsLine (normalizeCols df) :: (dateLines (normalizeCols df) ++ ["Means: "]) := by
  have hnum : ∀ c ∈ pollutants (normalizeCols df),
      colIsNumeric (normalizeCols df) c = false := by
    intro c hc
    have hall := h2 c hc
    cases hr : (normalizeCols df).rows with
    | nil => simp [colIsNumeric, hr]
    | cons r rs =>
      rw [hr] at hall
      have hone :
          ((colCells (normalizeCols df) c (r :: rs)).all Cell.isNumLike) = false := by
        rw [colCells, List.map_cons, List.all_cons] at hall ⊢
        rw [Bool.and_eq_true] at hall
        rw [cell_isStr_not_numLike _ hall.1]
        rfl
      simp [colIsNumeric, hr, hone]
  have hentries : meansEntries (normalizeCols df) = [] := by
    apply filterMap_nil_of_none
    intro c hc
    rw [hnum c hc]
    rfl
  have hmeans : meansLine (normalizeCols df) = "Means: " := by
    rw [meansLine, hentries]
    decide
  have hmsgs : trendMsgs (normalizeCols df) = [] := by
    apply filterMap_nil_of_none
    intro c hc
    rw [trendLabel, trendTry, hnum c hc]
    rfl
  refine ⟨hmeans, ?_⟩
  have hne : (pollutants (normalizeCols df)).isEmpty = false := by
    cases hp : pollutants (normalizeCols df) with
    | nil => exact absurd hp h1
    | cons p ps => rfl
  simp [analyze_air_quality_csv, bodyLines, hne, hmeans, trendLines, hmsgs]

/-- Witness for C10 at a dataset whose one pollutant column is text. -/
theorem bare_means_line_witness :
    meansLine (normalizeCols cexAllStr) = "Means: " ∧
    analyze_air_quality_csv cexAllStr =
      rowsLine (normalizeCols cexAllStr)
        :: (dateLines (normalizeCols cexAllStr) ++ ["Means: "]) :=
  bare_means_line cexAllStr (by decide) (by decide)

/-- Claim C6: a failure raised while computing one pollutant's trend is
caught: that pollutant contributes nothing, the other pollutants' trend
labels are exactly what they are without it, and the report is still
assembled and returned in full. -/
theorem trend_failure_isolated (df : Dataset) (pol : String)
    (h : trendTry (normalizeCols df) pol = Except.error ()) :
    trendLabel (normalizeCols df) pol = none ∧
    trendMsgs (normalizeCols df) =
      ((pollutants (normalizeCols df)).filter (fun p => p != pol)).filterMap
        (trendLabel (normalizeCols df)) ∧
    analyze_air_quality_csv df =
      rowsLine (normalizeCols df)
        :: (dateLines (normalizeCols df) ++ bodyLines (normalizeCols df)) := by
  have hl : trendLabel (normalizeCols df) pol = none := by
    rw [trendLabel, h]
  exact ⟨hl, filterMap_skip_none _ pol hl _, rfl⟩

/-- Witness for C6: `pm25` is mixed (its slice mean raises) while
`pm10` still yields its trend label and the report is intact. -/
theorem trend_failure_isolated_witness :
    trendTry (normalizeCols cexTwoPoll) "pm25" = Except.error () ∧
    trendMsgs (normalizeCols cexTwoPoll) = ["pm10: increasing (~6.00)"] ∧
    (trendLabel (normalizeCols cexTwoPoll) "pm25" = none ∧
     trendMsgs (normalizeCols cexTwoPoll) =
       ((pollutants (normalizeCols cexTwoPoll)).filter (fun p => p != "pm25")).filterMap
         (trendLabel (normalizeCols cexTwoPoll)) ∧
     analyze_air_quality_csv cexTwoPoll =
       rowsLine (normalizeCols cexTwoPoll)
         :: (dateLines (normalizeCols cexTwoPoll)
             ++ bodyLines (normalizeCols cexTwoPoll))) :=
  ⟨by decide, by decide, trend_failure_isolated cexTwoPoll "pm25" (by decide)⟩

theorem not_isEmpty_iff_ne_nil {α : Type} (l : List α) :
    (!l.isEmpty) = true ↔ l ≠ [] := by
  cases l <;> simp

/-- A column is dropped by the amended guard exactly when it is not of
numeric dtype. -/
theorem amended_guard_eq_not_numeric (df : Dataset) (c : String) :
    (df.rows.isEmpty || (colCells df c df.rows).any fun x => !x.isNumLike)
      = !(colIsNumeric df c) := by
  rw [colIsNumeric, any_not_eq_not_all]
  cases he : df.rows.isEmpty <;> simp [he]

/-- The code's per-pollutant trend contribution coincides with the
amended description pointwise. -/
theorem trendLabel_eq_amended (df : Dataset) (pol : String) :
    trendLabel df pol = trendLabelAmended df pol := by
  rw [trendLabelAmended, amended_guard_eq_not_numeric]
  cases hc : colIsNumeric df pol with
  | false => simp [trendLabel, trendTry, hc]
  | true =>
    simp only [trendLabel, trendTry, trendLabelClaim, hc, Bool.not_true,
      Bool.false_eq_true, if_false, if_true]
    cases h1 : meanOpt (colCells df pol
        (List.take ((sortedRows df).length / 4) (sortedRows df))) with
    | none => rfl
    | some hm =>
      cases h2 : meanOpt (colCells df pol
          (List.drop ((sortedRows df).length - (sortedRows df).length / 4)
            (sortedRows df))) with
      | none => rfl
      | some tm =>
        dsimp only
        by_cases hd : |tm - hm| < 1/1000000
        · rw [if_pos hd, if_pos hd]
        · rw [if_neg hd, if_neg hd]

/-- Claim C1 counterexample: on a pollutant column holding the values
`10` and `"abc"`, the claim's skip-non-numeric mean semantics predicts
the line `Means: pm25=10.00`, but the code's
`mean(numeric_only=True)` drops the object-dtype column whole and
emits a bare `Means: ` line. -/
theorem means_claim_counterexample :
    meansLineClaim (normalizeCols cexMixed) = "Means: pm25=10.00" ∧
    analyze_air_quality_csv cexMixed = ["Rows: 2", "Means: "] ∧
    meansLineClaim (normalizeCols cexMixed) ∉ analyze_air_quality_csv cexMixed := by
  decide

/-- Claim C1 as amended: the `Means:` line is emitted whenever a
pollutant column matched; a column is listed iff the dataset is
non-empty and the column holds no non-numeric value (a partially
numeric column is excluded whole); a listed column's value is its
nan-skipping mean; entries keep fixed vocabulary order. -/
theorem means_line_amended (df : Dataset)
    (h : pollutants (normalizeCols df) ≠ []) :
    meansEntries (normalizeCols df) = meansEntriesAmended (normalizeCols df) ∧
    analyze_air_quality_csv df =
      rowsLine (normalizeCols df)
        :: (dateLines (normalizeCols df)
            ++ (meansLine (normalizeCols df) :: trendLines (normalizeCols df))) ∧
    List.Sublist ((meansEntries (normalizeCols df)).map Prod.fst) pollutantVocab := by
  have hne : (pollutants (normalizeCols df)).isEmpty = false := by
    cases hp : pollutants (normalizeCols df) with
    | nil => exact absurd hp h
    | cons p ps => rfl
  refine ⟨?_, ?_, ?_⟩
  · apply filterMap_congr_fun
    intro c
    rw [amended_guard_eq_not_numeric]
    cases hc : colIsNumeric (normalizeCols df) c <;> simp
  · simp [analyze_air_quality_csv, bodyLines, hne]
  · have hmap :
        (meansEntries (normalizeCols df)).map Prod.fst
          = (pollutants (normalizeCols df)).filter
              (colIsNumeric (normalizeCols df)) :=
      map_fst_filterMap_if (colIsNumeric (normalizeCols df))
        (fun c => meanOpt (colCells (normalizeCols df) c
          (sortedRows (normalizeCols df))))
        (pollutants (normalizeCols df))
    rw [hmap]
    exact (List.filter_sublist _).trans (List.filter_sublist _)

/-- Witness for C1 (amended) at the sample CSV. -/
theorem means_line_amended_witness :
    analyze_air_quality_csv sampleCsv =
      rowsLine (normalizeCols sampleCsv)
        :: (dateLines (normalizeCols sampleCsv)
            ++ (meansLine (normalizeCols sampleCsv)
                :: trendLines (normalizeCols sampleCsv))) :=
  (means_line_amended sampleCsv (by decide)).2.1

/-- Claim C2 counterexample: an 8-row dataset with a date column whose
pollutant column mixes numbers with one non-numeric value satisfies the
claim's gate, and the claim's skip-non-numeric slice semantics predicts
the line `Simple trends: pm25: increasing (~15.00)`; the code instead
raises inside `head[pol].mean()` (object dtype), catches, skips the
pollutant, and emits no `Simple trends:` line at all. -/
theorem trends_claim_counterexample :
    dateCond (normalizeCols cexTrend) = true ∧
    8 ≤ (sortedRows (normalizeCols cexTrend)).length ∧
    (pollutants (normalizeCols cexTrend)).filterMap
        (trendLabelClaim (normalizeCols cexTrend))
      = ["pm25: increasing (~15.00)"] ∧
    analyze_air_quality_csv cexTrend
      = ["Rows: 8", "Date range: 2025-01-01 → 2025-01-08", "Means: "] ∧
    trendsLineClaim (normalizeCols cexTrend) ∉ analyze_air_quality_csv cexTrend := by
  decide

/-- Claim C2 as amended: the `Simple trends:` line is emitted iff the
date/row-count gate holds and some pollutant produced a label, the line
joins the labels with `"; "`, and the per-pollutant labels follow the
amended rule: a column holding any non-numeric value is skipped outright
(its slice-mean computation fails and is caught); otherwise the
head/tail slices are the first and last `floor(n/4)` date-sorted rows,
means skip missing values, a pollutant with an undefined slice mean or
drift below `1e-6` is skipped, and the label direction follows the sign
of the drift. -/
theorem trends_emission_amended (df : Dataset)
    (h : pollutants (normalizeCols df) ≠ []) :
    (trendLines (normalizeCols df) = [trendsLine (normalizeCols df)] ↔
      (dateCond (normalizeCols df) = true ∧
        8 ≤ (sortedRows (normalizeCols df)).length ∧
        trendMsgs (normalizeCols df) ≠ [])) ∧
    analyze_air_quality_csv df =
      rowsLine (normalizeCols df)
        :: (dateLines (normalizeCols df)
            ++ (meansLine (normalizeCols df) :: trendLines (normalizeCols df))) ∧
    trendsLine (normalizeCols df) =
      "Simple trends: " ++ String.intercalate "; " (trendMsgs (normalizeCols df)) ∧
    trendMsgs (normalizeCols df) =
      (pollutants (normalizeCols df)).filterMap
        (trendLabelAmended (normalizeCols df)) := by
  have hne : (pollutants (normalizeCols df)).isEmpty = false := by
    cases hp : pollutants (normalizeCols df) with
    | nil => exact absurd hp h
    | cons p ps => rfl
  refine ⟨?_, ?_, rfl, filterMap_congr_fun _ _ (trendLabel_eq_amended _) _⟩
  · constructor
    · intro he
      cases hb : (dateCond (normalizeCols df)
          && decide (8 ≤ (sortedRows (normalizeCols df)).length)
          && !(trendMsgs (normalizeCols df)).isEmpty) with
      | false =>
        rw [trendLines, hb] at he
        simp at he
      | true =>
        rw [Bool.and_eq_true, Bool.and_eq_true] at hb
        obtain ⟨⟨h1, h2⟩, h3⟩ := hb
        exact ⟨h1, of_decide_eq_true h2, (not_isEmpty_iff_ne_nil _).1 h3⟩
    · rintro ⟨h1, h2, h3⟩
      have hb : (dateCond (normalizeCols df)
          && decide (8 ≤ (sortedRows (normalizeCols df)).length)
          && !(trendMsgs (normalizeCols df)).isEmpty) = true := by
        rw [Bool.and_eq_true, Bool.and_eq_true]
        exact ⟨⟨h1, decide_eq_true h2⟩, (not_isEmpty_iff_ne_nil _).2 h3⟩
      rw [trendLines, hb]
      rfl
  · simp [analyze_air_quality_csv, bodyLines, hne]

/-- Witness for C2 (amended) at an 8-row drifting dataset. -/
theorem trends_emission_amended_witness :
    analyze_air_quality_csv cexTrendGood =
      rowsLine (normalizeCols cexTrendGood)
        :: (dateLines (normalizeCols cexTrendGood)
            ++ (meansLine (normalizeCols cexTrendGood)
                :: trendLines (normalizeCols cexTrendGood))) :=
  (trends_emission_amended cexTrendGood (by decide)).2.1

/-- Claim C4: the `Date range:` line is emitted iff a date column was
detected and some row carries a non-missing parsed date; the line shows
the skip-missing minimum and maximum through `fmtBound`, which renders
`N/A` exactly for a missing bound and otherwise only the date portion
of the timestamp (the time-of-day field never influences the text). -/
theorem date_range_characterization (df : Dataset) :
    (dateCond (normalizeCols df) = true ↔
      ((findDateCol (normalizeCols df)).isSome = true ∧
        ∃ r, r ∈ (normalizeCols df).rows ∧
          (rowDate (normalizeCols df) r).isSome = true)) ∧
    (dateCond (normalizeCols df) = true →
      analyze_air_quality_csv df =
        rowsLine (normalizeCols df)
          :: dateRangeLine (normalizeCols df) :: bodyLines (normalizeCols df)) ∧
    (dateCond (normalizeCols df) = false →
      analyze_air_quality_csv df =
        rowsLine (normalizeCols df) :: bodyLines (normalizeCols df)) ∧
    dateRangeLine (normalizeCols df) =
      "Date range: " ++ fmtBound (dmin (normalizeCols df)) ++ " → "
        ++ fmtBound (dmax (normalizeCols df)) ∧
    fmtBound none = "N/A" ∧
    (∀ t : Stamp, fmtBound (some t) = renderDate t) ∧
    (∀ a b : Stamp, a.y = b.y → a.m = b.m → a.d = b.d →
      renderDate a = renderDate b) := by
  refine ⟨⟨?_, ?_⟩, ?_, ?_, rfl, rfl, fun t => rfl, ?_⟩
  · intro hcond
    rw [dateCond, Bool.and_eq_true] at hcond
    obtain ⟨h1, h2⟩ := hcond
    refine ⟨h1, ?_⟩
    have hnil : dates (normalizeCols df) ≠ [] := (not_isEmpty_iff_ne_nil _).1 h2
    obtain ⟨r, hr, hsome⟩ := (filterMap_ne_nil_iff_exists _ _).1 hnil
    exact ⟨r, (sortedRows_perm (normalizeCols df)).mem_iff.1 hr, hsome⟩
  · rintro ⟨h1, r, hr, hsome⟩
    rw [dateCond, Bool.and_eq_true]
    refine ⟨h1, (not_isEmpty_iff_ne_nil _).2 ?_⟩
    exact (filterMap_ne_nil_iff_exists _ _).2
      ⟨r, (sortedRows_perm (normalizeCols df)).mem_iff.2 hr, hsome⟩
  · intro hcond
    simp [analyze_air_quality_csv, dateLines, hcond]
  · intro hcond
    simp [analyze_air_quality_csv, dateLines, hcond]
  · intro a b h1 h2 h3
    rw [renderDate, renderDate, h1, h2, h3]

/-- Witness for C4 at the sample CSV. -/
theorem date_range_characterization_witness :
    analyze_air_quality_csv sampleCsv =
      rowsLine (normalizeCols sampleCsv)
        :: dateRangeLine (normalizeCols sampleCsv)
        :: bodyLines (normalizeCols sampleCsv) :=
  (date_range_characterization sampleCsv).2.1 (by decide)
